import Mathlib

/-!
Shallow embedding of `src/text_editor.py`: the `ModernScrollbar` canvas
widget, the `EditorTab` document tabs and the `ModernTextEditor` shell.

Toolkit callbacks that reach outside the program (file dialogs, message
boxes, the notebook widget's hit testing, cursor positions, the success of
an OS write) are modelled as explicit oracle parameters; the file system is
an association list of performed writes.  Pixel coordinates are integers,
scroll fractions are rationals.
-/

/-- Python `int()` truncates toward zero; on the non-negative quantities the
scrollbar feeds it, this coincides with the floor. -/
def pyint (q : ℚ) : ℤ := if q < 0 then -⌊-q⌋ else ⌊q⌋

/-- State of a `ModernScrollbar`: the thumb rectangle and the drag
bookkeeping.  Colors, hover state and the canvas polygon are presentation
only and carry no logic the claims mention. -/
structure ScrollbarState where
  thumb_top : ℤ
  thumb_height : ℤ
  is_dragging : Bool
  drag_start_y : ℤ
  drag_start_top : ℤ
deriving DecidableEq

/-- `ModernScrollbar.redraw` restricted to its state effect: clamping the
stored thumb top into the track (the remainder of `redraw` only picks a
color and re-creates the canvas polygon).  `H` is `winfo_height()`. -/
def redrawState (H : ℤ) (sb : ScrollbarState) : ScrollbarState :=
  if H ≤ 1 then sb
  else
    let t1 := if sb.thumb_top + sb.thumb_height > H then H - sb.thumb_height else sb.thumb_top
    let t2 := if t1 < 0 then 0 else t1
    { sb with thumb_top := t2 }

/-- `ModernScrollbar.set(first, last)` together with the `redraw` it ends
with: store `int(first*height)` and `max(int((last-first)*height), 30)`,
then clamp. -/
def scrollbarSet (H : ℤ) (first lst : ℚ) (sb : ScrollbarState) : ScrollbarState :=
  if H ≤ 1 then sb
  else
    redrawState H
      { sb with
        thumb_top := pyint (first * (H : ℚ)),
        thumb_height := max (pyint ((lst - first) * (H : ℚ))) 30 }

/-- `ModernScrollbar.on_press`: record drag state unconditionally, then
either keep dragging silently (press inside the thumb) or issue one
`moveto event.y/height` command.  Returns the new widget state and the list
of `moveto` fractions passed to the scroll command. -/
def onPress (sb : ScrollbarState) (y H : ℤ) : ScrollbarState × List ℚ :=
  let sb1 : ScrollbarState :=
    { sb with is_dragging := true, drag_start_y := y, drag_start_top := sb.thumb_top }
  if sb.thumb_top ≤ y ∧ y ≤ sb.thumb_top + sb.thumb_height then
    (redrawState H sb1, [])
  else
    (redrawState H sb1, [(y : ℚ) / (H : ℚ)])

/-- `ModernScrollbar.on_drag`: the list of `moveto` fractions issued for one
pointer-move event (the widget state itself is not changed by `on_drag`). -/
def onDrag (sb : ScrollbarState) (y H : ℤ) : List ℚ :=
  if sb.is_dragging then
    let newTop := max 0 (min (sb.drag_start_top + (y - sb.drag_start_y)) (H - sb.thumb_height))
    if sb.thumb_height < H then [(newTop : ℚ) / ((H : ℚ) - (sb.thumb_height : ℚ))]
    else [0]
  else []

/-- One `EditorTab`: the buffer content (without the toolkit's implicit
trailing newline), the backing path and the modified flag. -/
structure Tab where
  content : List Char
  current_file : Option String
  is_modified : Bool
deriving DecidableEq

/-- A tab as produced by `EditorTab.__init__`: empty, no path, unmodified. -/
def freshTab : Tab := ⟨[], none, false⟩

/-- `text_area.get(1.0, END)`: Tk appends exactly one implicit newline to
the buffer content. -/
def tkGet (t : Tab) : List Char := t.content ++ ['\n']

/-- The bytes `save_file` writes: `self.text_area.get(1.0, tk.END)[:-1]`. -/
def saveBytes (t : Tab) : List Char := (tkGet t).dropLast

/-- One performed file write: path and bytes. -/
abbrev Write := String × List Char

/-- `open(p, 'w').write(c)` over a write-log file system. -/
def writeFS (fs : List Write) (p : String) (c : List Char) : List Write := (p, c) :: fs

/-- `open(p, 'r').read()` over a write-log file system. -/
def readFS (fs : List Write) (p : String) : Option (List Char) := fs.lookup p

/-- Tail of `save_file` once `tab.current_file` is a path `p`: try the write
(`writeOk` is the oracle for the `try`/`except`); on success clear the
modified flag and return `True`, otherwise show the error box and return
`False`.  Result: (tab state, return value, writes performed). -/
def saveWithPath (t : Tab) (p : String) (writeOk : Bool) : Tab × Bool × List Write :=
  if writeOk then ({ t with is_modified := false }, true, [(p, saveBytes t)])
  else (t, false, [])

/-- `save_as_file` acting on a tab: `dialog` is the path-selection oracle
(`asksaveasfilename`); with a path it first assigns `tab.current_file` and
then re-enters `save_file`, without a path it returns `False`. -/
def saveAsTab (t : Tab) (dialog : Option String) (writeOk : Bool) : Tab × Bool × List Write :=
  match dialog with
  | none => (t, false, [])
  | some p => saveWithPath { t with current_file := some p } p writeOk

/-- `save_file` acting on a tab: with a backing path it writes there,
without one it falls back to `save_as_file`. -/
def saveTab (t : Tab) (dialog : Option String) (writeOk : Bool) : Tab × Bool × List Write :=
  match t.current_file with
  | some p => saveWithPath t p writeOk
  | none => saveAsTab t dialog writeOk

/-- Outcome of `messagebox.askyesnocancel`. -/
inductive SaveResponse
  | yes
  | no
  | cancel
deriving DecidableEq

/-- `ModernTextEditor` shell state.  `hasStatusBar` records whether the
`self.status_bar` widget has been constructed yet. -/
structure Editor where
  tabs : List Tab
  activeIdx : ℕ
  untitled_counter : ℕ
  hasStatusBar : Bool
deriving DecidableEq

/-- State right after `__init__` ran `setup_ui` and `bind_shortcuts`:
`setup_ui`'s last executed statement is the `<Button-1>` binding of
`on_tab_click`; the status-bar construction and the first `new_tab()` call
are indented inside `on_tab_click` and have not run. -/
def initState : Editor := ⟨[], 0, 1, false⟩

/-- `new_tab`: append a fresh tab and select it. -/
def Editor.new_tab (e : Editor) : Editor :=
  { e with
    tabs := e.tabs ++ [freshTab],
    activeIdx := e.tabs.length,
    untitled_counter := e.untitled_counter + 1 }

/-- `get_active_tab`: `None` when the tab list is empty, otherwise the
notebook's selected tab. -/
def Editor.get_active_tab (e : Editor) : Option Tab :=
  if e.tabs.isEmpty then none else e.tabs[e.activeIdx]?

/-- `save_file` at shell level: it always acts on the active tab. -/
def Editor.save_file (e : Editor) (dialog : Option String) (writeOk : Bool) :
    Editor × Bool × List Write :=
  match e.get_active_tab with
  | none => (e, false, [])
  | some t =>
    let r := saveTab t dialog writeOk
    ({ e with tabs := e.tabs.set e.activeIdx r.1 }, r.2.1, r.2.2)

/-- `check_save_changes(tab)` run for the tab at index `i`; `resp` is the
dialog oracle.  The `Yes` branch is `return self.save_file()`, which saves
the active tab.  Result: (state, proceed?, writes performed). -/
def Editor.check_save_changes (e : Editor) (i : ℕ) (resp : SaveResponse)
    (dialog : Option String) (writeOk : Bool) : Editor × Bool × List Write :=
  match e.tabs[i]? with
  | none => (e, true, [])
  | some t =>
    if t.is_modified then
      match resp with
      | .yes => e.save_file dialog writeOk
      | .no => (e, true, [])
      | .cancel => (e, false, [])
    else (e, true, [])

/-- After `notebook.forget(i)` the toolkit keeps a neighbor selected; the
selection index shifts down when a preceding tab was removed and is clamped
into the shrunken range otherwise. -/
def adjustActive (a i len' : ℕ) : ℕ :=
  if i < a then a - 1 else min a (len' - 1)

/-- `close_tab_by_index(index)`: guard the range, run the unsaved-changes
check, and on proceed remove the tab, re-creating a fresh one if the list
became empty.  Result: (state, writes performed). -/
def Editor.close_tab_by_index (e : Editor) (i : ℕ) (resp : SaveResponse)
    (dialog : Option String) (writeOk : Bool) : Editor × List Write :=
  if i < e.tabs.length then
    let c := e.check_save_changes i resp dialog writeOk
    if c.2.1 then
      let e2 : Editor :=
        { c.1 with
          tabs := c.1.tabs.eraseIdx i,
          activeIdx := adjustActive c.1.activeIdx i (c.1.tabs.length - 1) }
      (if e2.tabs.isEmpty then e2.new_tab else e2, c.2.2)
    else (c.1, c.2.2)
  else (e, [])

/-- `close_tab`: same flow for the active tab. -/
def Editor.close_tab (e : Editor) (resp : SaveResponse)
    (dialog : Option String) (writeOk : Bool) : Editor × List Write :=
  match e.get_active_tab with
  | none => (e, [])
  | some _ =>
    let c := e.check_save_changes e.activeIdx resp dialog writeOk
    if c.2.1 then
      let e2 : Editor :=
        { c.1 with
          tabs := c.1.tabs.eraseIdx e.activeIdx,
          activeIdx := adjustActive c.1.activeIdx e.activeIdx (c.1.tabs.length - 1) }
      (if e2.tabs.isEmpty then e2.new_tab else e2, c.2.2)
    else (c.1, c.2.2)

/-- `open_file`: `dialog` is the `askopenfilename` oracle, `readResult` the
outcome of the file read (`none` = exception).  Once a path was chosen a
new tab is always created; on success its buffer, path and flag are set, on
failure the error box is shown and the fresh tab remains as created. -/
def Editor.open_file (e : Editor) (dialog : Option String)
    (readResult : Option (List Char)) : Editor :=
  match dialog with
  | none => e
  | some p =>
    let e1 := e.new_tab
    match readResult with
    | some content => { e1 with tabs := e1.tabs.set e1.activeIdx ⟨content, some p, false⟩ }
    | none => e1

/-- Does `on_tab_click` resolve a press as a close-button click?  The
oracles are the notebook's `identify` result, the clicked tab's bounding
box, and the press x-coordinate. -/
def isCloseClick (clickedTab : Option ℕ) (bbox : Option (ℤ × ℤ × ℤ × ℤ)) (ex : ℤ) : Bool :=
  match clickedTab, bbox with
  | some _, some (tx, _, tw, _) => decide (tx + tw - 25 < ex)
  | _, _ => false

/-- The code textually at the end of `on_tab_click`, reached whenever the
handler does not `return "break"`: build the status-bar frame and label,
then call `self.new_tab()`. -/
def clickFallthrough (e : Editor) : Editor :=
  Editor.new_tab { e with hasStatusBar := true }

/-- `on_tab_click`: close-button resolution inside the `try`, every other
outcome (no tab hit, no bounding box, press left of the close zone, or an
exception swallowed by `except: pass`) falls through to the trailing code.
Result: (state, whether `"break"` was returned, writes performed). -/
def Editor.on_tab_click (e : Editor) (clickedTab : Option ℕ)
    (bbox : Option (ℤ × ℤ × ℤ × ℤ)) (ex : ℤ) (resp : SaveResponse)
    (dialog : Option String) (writeOk : Bool) : Editor × Bool × List Write :=
  match clickedTab, bbox with
  | some i, some (tx, _, tw, _) =>
    if tx + tw - 25 < ex then
      let c := e.close_tab_by_index i resp dialog writeOk
      (c.1, true, c.2)
    else (clickFallthrough e, false, [])
  | _, _ => (clickFallthrough e, false, [])

/-- The characters Python's `str.split()` (no arguments) separates on. -/
def isPyWS (c : Char) : Bool :=
  c == ' ' || c == '\t' || c == '\n' || c == '\r' || c == '\x0b' || c == '\x0c'

/-- Worker for `content.split()`: maximal runs of non-whitespace
characters, with the current run accumulated in reverse. -/
def pySplitAux : List Char → List Char → List (List Char)
  | [], acc => if acc.isEmpty then [] else [acc.reverse]
  | c :: cs, acc =>
    if isPyWS c then
      if acc.isEmpty then pySplitAux cs [] else acc.reverse :: pySplitAux cs []
    else pySplitAux cs (c :: acc)

/-- Python `content.split()` with no arguments. -/
def pySplit (s : List Char) : List (List Char) := pySplitAux s []

/-- `update_status` for a given buffer and toolkit cursor position: the
displayed (line, column, word count, character count).  `content` is
`text_area.get(1.0, END)`, i.e. the buffer plus one implicit newline. -/
def updateStatus (buf : List Char) (line col : ℕ) : ℕ × ℕ × ℕ × ℕ :=
  let content := buf ++ ['\n']
  (line, col + 1, (pySplit content).length, content.length - 1)

/-- Tokens joined by single spaces: the spec's N-token typing scenario. -/
def joinSp : List (List Char) → List Char
  | [] => []
  | [t] => t
  | t :: ts => t ++ ' ' :: joinSp ts

/-! ## Helper lemmas -/

theorem list_set_concat {α : Type} (l : List α) (a b : α) :
    (l ++ [a]).set l.length b = l ++ [b] := by
  induction l with
  | nil => rfl
  | cons x xs ih => simp [List.set, ih]

theorem pyint_eq_floor (q : ℚ) (h : 0 ≤ q) : pyint q = ⌊q⌋ := by
  unfold pyint
  rw [if_neg (not_lt.mpr h)]

/-! ## C1: the at-least-one-tab invariant -/

/-- C1.  The claimed invariant — at least one tab in every reachable state
from initialization onward — fails at the initial state itself: `setup_ui`
ends with the `on_tab_click` binding, and the first `new_tab()` call is
indented inside `on_tab_click`, so right after initialization the tab list
is empty.  The close operations do uphold the re-creation half of the
claim: closing the only (unmodified) tab leaves exactly one fresh, empty,
unmodified tab. -/
theorem init_has_zero_tabs_close_recreates :
    initState.tabs.length = 0 ∧
    (Editor.close_tab_by_index ⟨[⟨['a'], none, false⟩], 0, 2, true⟩ 0
        SaveResponse.no none true).1.tabs = [freshTab] ∧
    (Editor.close_tab ⟨[⟨['a'], none, false⟩], 0, 2, true⟩
        SaveResponse.no none true).1.tabs = [freshTab] := by
  decide

/-! ## C2: which tab does the unsaved-changes check save? -/

/-- C2.  `check_save_changes(tab)`'s save-and-proceed branch is
`return self.save_file()`, and `save_file` acts on the *active* tab.
Closing the background tab 1 (modified, backed by `b.txt`) while tab 0
(unmodified, backed by `a.txt`) is active, with the user answering Yes,
writes `a.txt` with tab 0's content, never saves tab 1's content, and then
discards tab 1. -/
theorem check_save_changes_saves_active_tab :
    (Editor.close_tab_by_index
        ⟨[⟨['a'], some "a.txt", false⟩, ⟨['b'], some "b.txt", true⟩], 0, 3, true⟩
        1 SaveResponse.yes none true).2 = [("a.txt", ['a'])] ∧
    (Editor.close_tab_by_index
        ⟨[⟨['a'], some "a.txt", false⟩, ⟨['b'], some "b.txt", true⟩], 0, 3, true⟩
        1 SaveResponse.yes none true).1.tabs = [⟨['a'], some "a.txt", false⟩] := by
  decide

/-! ## C3: error atomicity of file I/O -/

/-- C3 counterexample.  The claim says a failed save — including a save-as —
leaves the tab's file path unchanged.  But `save_as_file` assigns
`tab.current_file = filepath` *before* delegating to `save_file`, so after
a failed write the path has moved from `old.txt` to `new.txt`. -/
theorem save_as_failure_changes_path :
    (saveAsTab ⟨['a'], some "old.txt", true⟩ (some "new.txt") false).1.current_file
      = some "new.txt" ∧
    some "new.txt" ≠ some "old.txt" ∧
    (saveAsTab ⟨['a'], some "old.txt", true⟩ (some "new.txt") false).2.1 = false := by
  decide

/-- C3 amended.  A failed write during a plain save (existing backing path)
leaves the whole tab untouched — modified flag still true, path and content
unchanged — and returns failure; a failed write during a save-as leaves the
modified flag and content untouched but the path already updated to the
newly supplied one; a failed read during open leaves the newly created tab
present, empty and unmodified. -/
theorem failed_io_preserves_state (c : List Char) (q : Option String) (m : Bool)
    (p : String) (dialog : Option String) (e : Editor) :
    saveTab ⟨c, some p, m⟩ dialog false = (⟨c, some p, m⟩, false, []) ∧
    saveAsTab ⟨c, q, m⟩ (some p) false = (⟨c, some p, m⟩, false, []) ∧
    (e.open_file (some p) none).tabs = e.tabs ++ [freshTab] := by
  refine ⟨rfl, rfl, ?_⟩
  simp [Editor.open_file, Editor.new_tab]

/-! ## C7: save-then-reload round trip -/

/-- C7.  Saving a tab writes `get(1.0, END)[:-1]`, i.e. the buffer with the
toolkit's single implicit trailing newline stripped; reading that file back
into the tab `open_file` creates reproduces the original buffer content
byte-exactly. -/
theorem save_reload_roundtrip (e : Editor) (fs : List Write) (p : String) (t : Tab) :
    readFS (writeFS fs p (saveBytes t)) p = some t.content ∧
    (e.open_file (some p) (readFS (writeFS fs p (saveBytes t)) p)).tabs
      = e.tabs ++ [⟨t.content, some p, false⟩] := by
  have hsb : saveBytes t = t.content := by
    simp [saveBytes, tkGet]
  have hr : readFS (writeFS fs p (saveBytes t)) p = some t.content := by
    simp [readFS, writeFS, List.lookup, hsb]
  refine ⟨hr, ?_⟩
  rw [hr]
  simp only [Editor.open_file, Editor.new_tab]
  exact list_set_concat e.tabs freshTab ⟨t.content, some p, false⟩

/-! ## C10: save without a backing path -/

/-- C10.  On a tab with no backing path, `save_file` falls through to the
save-as flow: with no path supplied it changes nothing and returns `False`;
with a supplied path it saves against exactly that path (the write targets
`p` with the tab's stripped buffer, the path is recorded, and success is
returned). -/
theorem save_without_path_spec (c : List Char) (m : Bool) (p : String) (w : Bool) :
    saveTab ⟨c, none, m⟩ none w = (⟨c, none, m⟩, false, []) ∧
    (saveTab ⟨c, none, m⟩ (some p) true).1.current_file = some p ∧
    (saveTab ⟨c, none, m⟩ (some p) true).2 = (true, [(p, c)]) := by
  refine ⟨rfl, rfl, ?_⟩
  simp [saveTab, saveAsTab, saveWithPath, saveBytes, tkGet]

/-! ## C4: non-close clicks run the trailing code of the handler -/

/-- C4.  Every left-button press on the notebook that is not resolved as a
close-button click falls through the `try`/`except` to the trailing code of
`on_tab_click`, which builds the status bar and appends a brand-new empty
tab (without returning `"break"`); and before the first such click the
shell has zero tabs and no status bar, since `setup_ui` never reaches that
code. -/
theorem on_tab_click_fallthrough (e : Editor) (ct : Option ℕ)
    (bb : Option (ℤ × ℤ × ℤ × ℤ)) (ex : ℤ) (r : SaveResponse)
    (dialog : Option String) (w : Bool) (h : isCloseClick ct bb ex = false) :
    (e.on_tab_click ct bb ex r dialog w).1.tabs = e.tabs ++ [freshTab] ∧
    (e.on_tab_click ct bb ex r dialog w).1.hasStatusBar = true ∧
    (e.on_tab_click ct bb ex r dialog w).2.1 = false ∧
    initState.tabs = [] ∧ initState.hasStatusBar = false := by
  refine ⟨?_, ?_, ?_, rfl, rfl⟩ <;>
  · match ct, bb with
    | none, _ => rfl
    | some i, none => rfl
    | some i, some (tx, ty, tw, th) =>
      simp only [isCloseClick, decide_eq_false_iff_not, not_lt] at h
      simp [Editor.on_tab_click, if_neg (not_lt.mpr h), clickFallthrough, Editor.new_tab]

theorem on_tab_click_fallthrough_witness :
    isCloseClick none none 0 = false ∧
    (initState.on_tab_click none none 0 SaveResponse.no none true).1.tabs = [freshTab] ∧
    (initState.on_tab_click none none 0 SaveResponse.no none true).1.hasStatusBar = true :=
  ⟨rfl,
   (on_tab_click_fallthrough initState none none 0 SaveResponse.no none true rfl).1,
   (on_tab_click_fallthrough initState none none 0 SaveResponse.no none true rfl).2.1⟩

/-! ## C5: thumb geometry after `set` and `redraw` -/

/-- C5 counterexample.  The claim asserts thumb top `= ⌊s·H⌋` and thumb
top + height `≤ H` for every positive track height.  At `H = 100`,
`(s, e) = (9/10, 1)` the redraw clamp moves the top to `70 ≠ ⌊90⌋`; and at
`H = 10`, `(s, e) = (0, 1/2)` the 30px minimum thumb makes
top + height `= 30 > 10`. -/
theorem thumb_geometry_counterexample :
    (scrollbarSet 100 (9/10) 1 ⟨0, 0, false, 0, 0⟩).thumb_top = 70 ∧
    pyint ((9/10 : ℚ) * 100) = 90 ∧
    (scrollbarSet 10 0 (1/2) ⟨0, 0, false, 0, 0⟩).thumb_top
      + (scrollbarSet 10 0 (1/2) ⟨0, 0, false, 0, 0⟩).thumb_height = 30 ∧
    ¬((30 : ℤ) ≤ 10) := by
  refine ⟨?_, ?_, ?_, by decide⟩ <;>
    norm_num [scrollbarSet, redrawState, pyint]

/-- C5 amended.  For visible fractions `0 ≤ s < e ≤ 1` and track heights
`H ≥ 30`: the thumb height is `max(30, ⌊(e−s)·H⌋)`; the thumb top is
`⌊s·H⌋` clamped down so the thumb fits, i.e. `min(⌊s·H⌋, H − height)`; the
top is never negative, and top + height never exceeds the track.  (For
`H < 30` the 30px minimum thumb necessarily overflows the track, and
whenever the clamp fires the drawn top is below `⌊s·H⌋` — the original
claim fails there, see the counterexample.) -/
theorem thumb_geometry (H : ℤ) (s e : ℚ) (sb : ScrollbarState)
    (hs : 0 ≤ s) (hse : s < e) (he : e ≤ 1) (hH : (30 : ℤ) ≤ H) :
    (scrollbarSet H s e sb).thumb_height = max ⌊(e - s) * (H : ℚ)⌋ 30 ∧
    (scrollbarSet H s e sb).thumb_top =
      min ⌊s * (H : ℚ)⌋ (H - (scrollbarSet H s e sb).thumb_height) ∧
    0 ≤ (scrollbarSet H s e sb).thumb_top ∧
    (scrollbarSet H s e sb).thumb_top + (scrollbarSet H s e sb).thumb_height ≤ H := by
  have hH1 : ¬ H ≤ 1 := by omega
  have hHQ : (0 : ℚ) ≤ (H : ℚ) := by exact_mod_cast (by omega : (0 : ℤ) ≤ H)
  have h1 : 0 ≤ s * (H : ℚ) := mul_nonneg hs hHQ
  have h2 : 0 ≤ (e - s) * (H : ℚ) := mul_nonneg (by linarith) hHQ
  have hA : 0 ≤ ⌊s * (H : ℚ)⌋ := Int.floor_nonneg.mpr h1
  have hle : (e - s) * (H : ℚ) ≤ (H : ℚ) := by
    calc (e - s) * (H : ℚ) ≤ 1 * (H : ℚ) :=
          mul_le_mul_of_nonneg_right (by linarith) hHQ
    _ = (H : ℚ) := one_mul _
  have hfh : ⌊(e - s) * (H : ℚ)⌋ ≤ H := by
    have := Int.floor_le_floor hle
    simpa using this
  have hB : max ⌊(e - s) * (H : ℚ)⌋ 30 ≤ H := max_le hfh hH
  simp only [scrollbarSet, redrawState, if_neg hH1,
    pyint_eq_floor _ h1, pyint_eq_floor _ h2]
  set A := ⌊s * (H : ℚ)⌋ with hAdef
  set B := max ⌊(e - s) * (H : ℚ)⌋ 30 with hBdef
  have hB30 : (30 : ℤ) ≤ B := le_max_right _ _
  refine ⟨trivial, ?_, ?_, ?_⟩ <;> (split_ifs <;> omega)

theorem thumb_geometry_witness :
    ((0 : ℚ) ≤ 0 ∧ (0 : ℚ) < 1 ∧ (1 : ℚ) ≤ 1 ∧ (30 : ℤ) ≤ 100) ∧
    0 ≤ (scrollbarSet 100 0 1 ⟨0, 0, false, 0, 0⟩).thumb_top ∧
    (scrollbarSet 100 0 1 ⟨0, 0, false, 0, 0⟩).thumb_top
      + (scrollbarSet 100 0 1 ⟨0, 0, false, 0, 0⟩).thumb_height ≤ 100 :=
  ⟨⟨le_refl 0, by norm_num, le_refl 1, by norm_num⟩,
   (thumb_geometry 100 0 1 ⟨0, 0, false, 0, 0⟩ (le_refl 0) (by norm_num)
      (le_refl 1) (by norm_num)).2.2.1,
   (thumb_geometry 100 0 1 ⟨0, 0, false, 0, 0⟩ (le_refl 0) (by norm_num)
      (le_refl 1) (by norm_num)).2.2.2⟩

/-! ## C6: press behavior -/

/-- C6 counterexample.  The claim says a press outside the thumb jumps the
view and "no drag begins".  With the thumb at `[0, 30]`, a press at
`y = 50` on a 100px track issues the `moveto 50/100` jump *and* sets
`is_dragging`: `on_press` records the drag state unconditionally before
distinguishing thumb from track. -/
theorem press_outside_thumb_starts_drag :
    (onPress ⟨0, 30, false, 0, 0⟩ 50 100).1.is_dragging = true ∧
    (onPress ⟨0, 30, false, 0, 0⟩ 50 100).2 ≠ [] := by
  constructor
  · rfl
  · norm_num [onPress, redrawState]

/-- C6 amended.  Every press records the drag state — `is_dragging` set,
anchor `drag_start_y = pressY` and `drag_start_top` = current thumb top —
regardless of where it lands.  A press inside the thumb rectangle issues no
scroll command; a press outside it additionally issues exactly one absolute
`moveto pressY/trackHeight` command. -/
theorem on_press_spec (sb : ScrollbarState) (y H : ℤ) :
    (onPress sb y H).1.is_dragging = true ∧
    (onPress sb y H).1.drag_start_y = y ∧
    (onPress sb y H).1.drag_start_top = sb.thumb_top ∧
    (sb.thumb_top ≤ y ∧ y ≤ sb.thumb_top + sb.thumb_height → (onPress sb y H).2 = []) ∧
    (¬(sb.thumb_top ≤ y ∧ y ≤ sb.thumb_top + sb.thumb_height) →
      (onPress sb y H).2 = [(y : ℚ) / (H : ℚ)]) := by
  unfold onPress redrawState
  split_ifs <;> simp_all

theorem on_press_spec_witness :
    ¬((0 : ℤ) ≤ 50 ∧ (50 : ℤ) ≤ 0 + 30) ∧
    (onPress ⟨0, 30, false, 0, 0⟩ 50 100).1.is_dragging = true ∧
    (onPress ⟨0, 30, false, 0, 0⟩ 50 100).2 = [((50 : ℤ) : ℚ) / ((100 : ℤ) : ℚ)] :=
  ⟨by decide,
   (on_press_spec ⟨0, 30, false, 0, 0⟩ 50 100).1,
   (on_press_spec ⟨0, 30, false, 0, 0⟩ 50 100).2.2.2.2 (by decide)⟩

/-! ## C9: drag-to-fraction mapping -/

/-- C9.  While dragging: the new thumb top is the anchored top plus the
pointer delta, clamped to `[0, H − thumbHeight]`; exactly one `moveto`
command is issued with fraction `newTop / (H − thumbHeight)`, or `0` when
`H ≤ thumbHeight` (no division by zero).  Dragging so the clamped top lands
on any track position `p` in range produces fraction `p / (H − thumbHeight)`,
and multiplying back by `H − thumbHeight` recovers `p` exactly. -/
theorem on_drag_spec (sb : ScrollbarState) (y H : ℤ) (hd : sb.is_dragging = true) :
    (H ≤ sb.thumb_height → onDrag sb y H = [0]) ∧
    (sb.thumb_height < H →
      onDrag sb y H =
        [((max 0 (min (sb.drag_start_top + (y - sb.drag_start_y))
            (H - sb.thumb_height)) : ℤ) : ℚ) / ((H : ℚ) - (sb.thumb_height : ℚ))] ∧
      0 ≤ max 0 (min (sb.drag_start_top + (y - sb.drag_start_y)) (H - sb.thumb_height)) ∧
      max 0 (min (sb.drag_start_top + (y - sb.drag_start_y)) (H - sb.thumb_height))
        ≤ H - sb.thumb_height) ∧
    (sb.thumb_height < H → ∀ p : ℤ, 0 ≤ p → p ≤ H - sb.thumb_height →
      onDrag sb (sb.drag_start_y + (p - sb.drag_start_top)) H
        = [(p : ℚ) / ((H : ℚ) - (sb.thumb_height : ℚ))] ∧
      ((p : ℚ) / ((H : ℚ) - (sb.thumb_height : ℚ))) * ((H : ℚ) - (sb.thumb_height : ℚ))
        = (p : ℚ)) := by
  refine ⟨?_, ?_, ?_⟩
  · intro h
    simp [onDrag, hd, not_lt.mpr h]
  · intro h
    refine ⟨by simp [onDrag, hd, h], le_max_left _ _, ?_⟩
    omega
  · intro h p hp0 hp1
    have harg : sb.drag_start_top + (sb.drag_start_y + (p - sb.drag_start_top)
        - sb.drag_start_y) = p := by ring
    have hclamp : max 0 (min p (H - sb.thumb_height)) = p := by omega
    have hne : ((H : ℚ) - (sb.thumb_height : ℚ)) ≠ 0 := by
      have : (sb.thumb_height : ℚ) < (H : ℚ) := by exact_mod_cast h
      linarith
    constructor
    · simp [onDrag, hd, h, harg, hclamp]
    · exact div_mul_cancel₀ _ hne

theorem on_drag_spec_witness :
    (⟨0, 30, true, 10, 0⟩ : ScrollbarState).is_dragging = true ∧
    ((30 : ℤ) < 130) ∧
    onDrag ⟨0, 30, true, 10, 0⟩ 60 130 = [(1 : ℚ) / 2] := by
  refine ⟨rfl, by decide, ?_⟩
  have h := (on_drag_spec ⟨0, 30, true, 10, 0⟩ 60 130 rfl).2.1 (by decide)
  rw [h.1]
  have h50 : (max 0 (min ((0 : ℤ) + (60 - 10)) (130 - 30)) : ℤ) = 50 := by decide
  rw [h50]
  norm_num

/-! ## C8: status bar computation -/

theorem pySplitAux_nonws (cs : List Char) (h : ∀ c ∈ cs, isPyWS c = false) :
    ∀ (rest acc : List Char),
      pySplitAux (cs ++ rest) acc = pySplitAux rest (cs.reverse ++ acc) := by
  induction cs with
  | nil => intro rest acc; simp
  | cons c cs ih =>
    intro rest acc
    have hc : isPyWS c = false := h c (by simp)
    have hcs : ∀ x ∈ cs, isPyWS x = false := fun x hx => h x (by simp [hx])
    have step : pySplitAux ((c :: cs) ++ rest) acc = pySplitAux (cs ++ rest) (c :: acc) := by
      simp [pySplitAux, hc]
    rw [step, ih hcs rest (c :: acc)]
    simp

theorem pySplit_joinSp_count (tokens : List (List Char))
    (h : ∀ tok ∈ tokens, tok ≠ [] ∧ ∀ c ∈ tok, isPyWS c = false) :
    (pySplit (joinSp tokens ++ ['\n'])).length = tokens.length := by
  have hnl : isPyWS '\n' = true := by decide
  have hsp : isPyWS ' ' = true := by decide
  induction tokens with
  | nil => rfl
  | cons t ts ih =>
    obtain ⟨ht, htc⟩ := h t (by simp)
    have hts : ∀ tok ∈ ts, tok ≠ [] ∧ ∀ c ∈ tok, isPyWS c = false :=
      fun x hx => h x (by simp [hx])
    cases ts with
    | nil =>
      show (pySplitAux (t ++ ['\n']) []).length = 1
      rw [pySplitAux_nonws t htc ['\n'] []]
      simp [pySplitAux, hnl, ht]
    | cons t2 ts2 =>
      show (pySplitAux ((t ++ ' ' :: joinSp (t2 :: ts2)) ++ ['\n']) []).length
        = (t2 :: ts2).length + 1
      have hJ : (t ++ ' ' :: joinSp (t2 :: ts2)) ++ ['\n']
          = t ++ (' ' :: (joinSp (t2 :: ts2) ++ ['\n'])) := by simp
      rw [hJ, pySplitAux_nonws t htc _ []]
      have hstep : pySplitAux (' ' :: (joinSp (t2 :: ts2) ++ ['\n'])) (t.reverse ++ [])
          = (t.reverse ++ []).reverse :: pySplitAux (joinSp (t2 :: ts2) ++ ['\n']) [] := by
        simp [pySplitAux, hsp, ht]
      rw [hstep]
      have hlen := ih hts
      simp only [pySplit] at hlen
      simp [hlen]

/-- C8.  `update_status` reports the toolkit's line unchanged, the 0-based
column plus one, the number of whitespace-delimited tokens of the full
retrieved content (buffer plus the single implicit trailing newline), and
the retrieved content length minus that one newline — which equals the
buffer length; and a buffer of `N` non-whitespace tokens separated by
single spaces yields word count `N`. -/
theorem update_status_spec (buf : List Char) (line col : ℕ)
    (tokens : List (List Char))
    (h : ∀ tok ∈ tokens, tok ≠ [] ∧ ∀ c ∈ tok, isPyWS c = false) :
    updateStatus buf line col
      = (line, col + 1, (pySplit (buf ++ ['\n'])).length, buf.length) ∧
    (updateStatus (joinSp tokens) line col).2.2.1 = tokens.length := by
  constructor
  · simp [updateStatus]
  · show (pySplit (joinSp tokens ++ ['\n'])).length = tokens.length
    exact pySplit_joinSp_count tokens h

theorem update_status_spec_witness :
    (∀ tok ∈ [['h', 'i'], ['y', 'o']], tok ≠ [] ∧ ∀ c ∈ tok, isPyWS c = false) ∧
    (updateStatus (joinSp [['h', 'i'], ['y', 'o']]) 1 0).2.2.1 = 2 :=
  ⟨by decide,
   (update_status_spec (joinSp [['h', 'i'], ['y', 'o']]) 1 0
      [['h', 'i'], ['y', 'o']] (by decide)).2⟩
